import Mathlib

/-
Verification of the authentication and authorization layer of the Proton
marketplace backend (src/main.py, src/schemas.py).

The embedding models:
  - JSON-like values (JVal) and python dicts as association lists (Payload),
  - the JWT token codec (create_token / decode_token) with the signature
    abstracted as the signing secret carried on the token, and string
    serialization of tokens abstracted by a deserialization parameter,
  - the user store as a list of user documents (MongoDB find_one is the
    first list element matching the filter),
  - every route handler of src/main.py that the claims mention, with the
    password hasher passed in as a function parameter (bcrypt itself is an
    external library and is not modelled).
-/

namespace Proton

/-- JSON-like values appearing in token payloads and inserted documents.
Numeric values from the source (unix timestamps, ids) are carried as Int;
the source stores float amounts and prices without ever computing with
them, so they are carried as Int values as well. -/
inductive JVal where
  | s (v : String)
  | i (v : Int)
  | null
  deriving DecidableEq, Repr

/-- A python dict with string keys, as an association list. -/
abbrev Payload := List (String × JVal)

/-- Models `d.get(k)` / `d[k]` lookup on a python dict. -/
def Payload.get (p : Payload) (k : String) : Option JVal :=
  (p.find? (fun kv => kv.1 = k)).map (fun kv => kv.2)

/-- Models `d[k] = v`: overwrite the key if present, else append it. -/
def Payload.set (p : Payload) (k : String) (v : JVal) : Payload :=
  if (p.find? (fun kv => kv.1 = k)).isSome then
    p.map (fun kv => if kv.1 = k then (k, v) else kv)
  else
    p ++ [(k, v)]

/-- Models python `str(v)` on a JVal (used by the `_id` stringify loops). -/
def JVal.pyStr : JVal → String
  | .s v => v
  | .i v => toString v
  | .null => "None"

/-- Convert an optional string to a JVal, mapping python None to null. -/
def JVal.ofOpt : Option String → JVal
  | some v => .s v
  | none => .null

/-- An HTTPException as raised in src/main.py: status code and detail. -/
structure HTTPError where
  status : Nat
  detail : String
  deriving DecidableEq, Repr

/-- The process-wide signing secret (src/main.py line 24, default value). -/
def JWT_SECRET : String := "dev_secret_change_me"

/-- A signed token. jwt.encode/jwt.decode are modelled by carrying the
payload and the secret the token was signed with on the token value; a bad
signature is a secret mismatch, and any non-JWT string deserializes to
`malformed`. -/
inductive SignedToken where
  | signed (payload : Payload) (secret : String)
  | malformed
  deriving DecidableEq, Repr

/-- The payload of a well-formed token, if any. -/
def SignedToken.payload? : SignedToken → Option Payload
  | .signed p _ => some p
  | .malformed => none

/-- Embeds `create_token` (src/main.py lines 38-42): copy the data dict,
set `exp` to now plus `expires_minutes` minutes (the caller always uses the
default 60), and sign with JWT_SECRET. `now` is the unix time of issuance. -/
def create_token (data : Payload) (now : Int) (expires_minutes : Int) : SignedToken :=
  .signed (Payload.set data "exp" (.i (now + expires_minutes * 60))) JWT_SECRET

/-- Embeds `decode_token` (src/main.py lines 45-51). PyJWT first verifies
the signature (failure → InvalidTokenError → 401 "Invalid token"), then
validates the `exp` claim when present (expired → ExpiredSignatureError →
401 "Token expired"; a non-integer exp is a DecodeError → "Invalid token"). -/
def decode_token (now : Int) : SignedToken → Except HTTPError Payload
  | .malformed => .error ⟨401, "Invalid token"⟩
  | .signed p secret =>
    if secret ≠ JWT_SECRET then .error ⟨401, "Invalid token"⟩
    else
      match Payload.get p "exp" with
      | some (.i e) => if e ≤ now then .error ⟨401, "Token expired"⟩ else .ok p
      | some _ => .error ⟨401, "Invalid token"⟩
      | none => .ok p

/-- A stored user document as inserted by signup (src/main.py lines 191-202,
schema in src/schemas.py class User). `oid` models the MongoDB `_id`
(absent in edge cases, hence Option); `password_hash` and `is_active` are
Option because the handlers access them with `.get` and a default. -/
structure UserDoc where
  oid : Option Nat
  name : String
  email : String
  phone : Option String
  role : String
  password_hash : Option String
  kyc_status : String
  company_id : Option String
  is_active : Option Bool
  created_at : Int
  updated_at : Int
  deriving DecidableEq, Repr

/-- The sanitized user view: the user document with `password_hash` removed
and `_id` coerced to a string (spec SanitizedUser; src/main.py lines
128-131, 206-207, 220-221). -/
structure SanitizedUser where
  sid : Option String
  name : String
  email : String
  phone : Option String
  role : String
  kyc_status : String
  company_id : Option String
  is_active : Option Bool
  created_at : Int
  updated_at : Int
  deriving DecidableEq, Repr

/-- The sanitization step applied by get_current_user, signup and login:
`user["_id"] = str(user["_id"]) if "_id" in user else None` followed by
`user.pop("password_hash", None)`. MongoDB find_one returns a fresh dict,
so this never mutates the stored record; accordingly it is a pure
projection here. -/
def sanitize (u : UserDoc) : SanitizedUser :=
  { sid := u.oid.map (fun n => toString n)
    name := u.name
    email := u.email
    phone := u.phone
    role := u.role
    kyc_status := u.kyc_status
    company_id := u.company_id
    is_active := u.is_active
    created_at := u.created_at
    updated_at := u.updated_at }

/-- Models `db["user"].find_one({"email": e})`: the first stored user whose
email equals the filter value. -/
def find_user (store : List UserDoc) (e : String) : Option UserDoc :=
  store.find? (fun u => u.email = e)

/-- Split a character list at the first occurrence of `c`; when `c` does
not occur the whole list is the first component and the second is empty. -/
def splitAtFirst (c : Char) : List Char → List Char × List Char
  | [] => ([], [])
  | x :: xs =>
    if x = c then ([], xs)
    else
      let r := splitAtFirst c xs
      (x :: r.1, r.2)

/-- Models python `s.partition(sep)` for the single-character separator
" " used at src/main.py line 121, restricted to the (before, after)
components (the middle component is never read). When the separator does
not occur, python returns after = "", which coincides with this model. -/
def partition (s : String) (sep : Char) : String × String :=
  let r := splitAtFirst sep s.toList
  (String.mk r.1, String.mk r.2)

/-- Models python `s.lower()` (characterwise ASCII lowercasing, which is
all that `scheme.lower()` needs). -/
def strToLower (s : String) : String :=
  String.mk (s.toList.map Char.toLower)

/-- The header-parsing prefix of `get_current_user` (src/main.py lines
118-123): a missing header (python None, or the empty string, which is
falsy) is 401 "Missing Authorization header"; a scheme that is not a
case-insensitive "bearer", or an empty token part, is 401
"Invalid auth header"; otherwise the token part is returned. -/
def parseAuthHeader : Option String → Except HTTPError String
  | none => .error ⟨401, "Missing Authorization header"⟩
  | some a =>
    if a = "" then .error ⟨401, "Missing Authorization header"⟩
    else
      let st := partition a ' '
      if strToLower st.1 ≠ "bearer" ∨ st.2 = "" then .error ⟨401, "Invalid auth header"⟩
      else .ok st.2

/-- Models `db["user"].find_one({"email": payload.get("sub")})` (src/main.py
line 125): when the `sub` claim is absent or not a string the filter value
is not a stored email, so nothing matches. -/
def lookup_sub (store : List UserDoc) (p : Payload) : Option UserDoc :=
  match Payload.get p "sub" with
  | some (.s e) => find_user store e
  | _ => none

/-- Embeds `get_current_user` (src/main.py lines 118-131). `deserialize`
is the bridge from the token substring of the header to the token value
(jwt strings are opaque); the store is read-only here. -/
def get_current_user (deserialize : String → SignedToken) (store : List UserDoc)
    (now : Int) (authorization : Option String) : Except HTTPError SanitizedUser :=
  match parseAuthHeader authorization with
  | .error e => .error e
  | .ok tokenStr =>
    match decode_token now (deserialize tokenStr) with
    | .error e => .error e
    | .ok payload =>
      match lookup_sub store payload with
      | none => .error ⟨401, "User not found"⟩
      | some u => .ok (sanitize u)

/-- The body of `POST /auth/signup` (src/main.py class SignupRequest). -/
structure SignupRequest where
  name : String
  email : String
  password : String
  role : String
  deriving DecidableEq, Repr

/-- The body of `POST /auth/login` (src/main.py class LoginRequest). -/
structure LoginRequest where
  email : String
  password : String
  deriving DecidableEq, Repr

/-- The success shape of both auth endpoints (src/main.py class
AuthResponse; token_type defaults to "bearer"). -/
structure AuthResponse where
  access_token : SignedToken
  token_type : String
  user : SanitizedUser
  deriving DecidableEq, Repr

/-- Embeds `signup` (src/main.py lines 185-208). `hashF` abstracts
`hash_password` (bcrypt via passlib, an external library); `newId` is the
ObjectId the store assigns to the inserted document; `now` is the unix
time. The stored document keeps the password hash; the response user is
the sanitized view. -/
def signup (hashF : String → String) (p : SignupRequest) (store : List UserDoc)
    (now : Int) (newId : Nat) : Except HTTPError (AuthResponse × List UserDoc) :=
  let email := strToLower p.email
  match find_user store email with
  | some _ => .error ⟨400, "Email already registered"⟩
  | none =>
    let user_doc : UserDoc :=
      { oid := some newId
        name := p.name
        email := email
        phone := none
        role := p.role
        password_hash := some (hashF p.password)
        kyc_status := "pending"
        company_id := none
        is_active := some true
        created_at := now
        updated_at := now }
    let token := create_token [("sub", .s email), ("role", .s p.role)] now 60
    .ok ({ access_token := token, token_type := "bearer", user := sanitize user_doc },
         store ++ [user_doc])

/-- Embeds `login` (src/main.py lines 211-222). `verifyF` abstracts
`verify_password` (passlib); an absent stored hash is passed as ""
(`user.get("password_hash", "")`), and an absent `is_active` defaults to
true (`user.get("is_active", True)`). The store is read-only here. -/
def login (verifyF : String → String → Bool) (p : LoginRequest)
    (store : List UserDoc) (now : Int) : Except HTTPError AuthResponse :=
  let email := strToLower p.email
  match find_user store email with
  | none => .error ⟨401, "Invalid credentials"⟩
  | some user =>
    if ¬ verifyF p.password (user.password_hash.getD "") then
      .error ⟨401, "Invalid credentials"⟩
    else if ¬ user.is_active.getD true then
      .error ⟨403, "User deactivated"⟩
    else
      .ok { access_token := create_token [("sub", .s email), ("role", .s user.role)] now 60
            token_type := "bearer"
            user := sanitize user }

/-- The response post-processing loop `d["_id"] = str(d["_id"]) if "_id" in
d else None` applied to each listed document. -/
def stringify_id (d : Payload) : Payload :=
  match Payload.get d "_id" with
  | some v => Payload.set d "_id" (.s v.pyStr)
  | none => Payload.set d "_id" .null

/-- Embeds `create_product` (src/main.py lines 231-238): vendors only; the
inserted document is the request dict extended with the caller's id. -/
def create_product (payload : Payload) (user : SanitizedUser) : Except HTTPError Payload :=
  if user.role ≠ "vendor" then .error ⟨403, "Only vendors can create products"⟩
  else .ok (Payload.set payload "vendor_id" (JVal.ofOpt user.sid))

/-- Embeds `my_products` (src/main.py lines 241-248): vendors only; the
query filter scopes results to `vendor_id = caller.id`. -/
def my_products (store : List Payload) (user : SanitizedUser) : Except HTTPError (List Payload) :=
  if user.role ≠ "vendor" then .error ⟨403, "Only vendors can view this"⟩
  else .ok ((store.filter
      (fun d => Payload.get d "vendor_id" = some (JVal.ofOpt user.sid))).map stringify_id)

/-- Embeds `create_requirement` (src/main.py lines 252-259): buyers only. -/
def create_requirement (payload : Payload) (user : SanitizedUser) : Except HTTPError Payload :=
  if user.role ≠ "buyer" then .error ⟨403, "Only buyers can post requirements"⟩
  else .ok (Payload.set (Payload.set payload "buyer_id" (JVal.ofOpt user.sid))
      "status" (.s "submitted"))

/-- Embeds `my_requirements` (src/main.py lines 262-269): buyers only; the
query filter scopes results to `buyer_id = caller.id`. -/
def my_requirements (store : List Payload) (user : SanitizedUser) : Except HTTPError (List Payload) :=
  if user.role ≠ "buyer" then .error ⟨403, "Only buyers can view this"⟩
  else .ok ((store.filter
      (fun d => Payload.get d "buyer_id" = some (JVal.ofOpt user.sid))).map stringify_id)

/-- Embeds `create_project` (src/main.py lines 273-280): vendors or admins. -/
def create_project (payload : Payload) (user : SanitizedUser) : Except HTTPError Payload :=
  if user.role ≠ "vendor" ∧ user.role ≠ "admin" then
    .error ⟨403, "Only vendors or admins can create projects"⟩
  else .ok (Payload.set payload "owner_vendor_id" (JVal.ofOpt user.sid))

/-- Embeds `list_projects` (src/main.py lines 283-288): public, no auth
dependency, no role gate. -/
def list_projects (store : List Payload) : List Payload :=
  store.map stringify_id

/-- The body of `POST /investor/invest` (src/main.py class InvestPayload;
the source `amount` is a float that is only stored, never computed with). -/
structure InvestPayload where
  project_id : String
  amount : Int
  deriving DecidableEq, Repr

/-- Embeds `invest` (src/main.py lines 291-302): investors only. -/
def invest (payload : InvestPayload) (user : SanitizedUser) : Except HTTPError Payload :=
  if user.role ≠ "investor" then .error ⟨403, "Only investors can invest"⟩
  else .ok [("investor_id", JVal.ofOpt user.sid), ("project_id", .s payload.project_id),
            ("amount", .i payload.amount), ("status", .s "initiated")]

/-- Embeds `create_job` (src/main.py lines 306-312): vendors or admins;
the inserted document is the request dict unchanged. -/
def create_job (payload : Payload) (user : SanitizedUser) : Except HTTPError Payload :=
  if user.role ≠ "vendor" ∧ user.role ≠ "admin" then
    .error ⟨403, "Only vendors/admins can post jobs"⟩
  else .ok payload

/-- Embeds `list_jobs` (src/main.py lines 315-320): public, no auth
dependency, no role gate. -/
def list_jobs (store : List Payload) : List Payload :=
  store.map stringify_id

/-- The body of `POST /job/apply` (src/main.py class ApplyPayload). -/
structure ApplyPayload where
  job_id : String
  resume_url : Option String
  deriving DecidableEq, Repr

/-- Embeds `apply_job` (src/main.py lines 323-329): employees or admins. -/
def apply_job (payload : ApplyPayload) (user : SanitizedUser) : Except HTTPError Payload :=
  if user.role ≠ "employee" ∧ user.role ≠ "admin" then
    .error ⟨403, "Only employees/admins can apply"⟩
  else .ok [("job_id", .s payload.job_id), ("user_id", JVal.ofOpt user.sid),
            ("status", .s "applied"), ("resume_url", JVal.ofOpt payload.resume_url)]

/-- Embeds `admin_overview` (src/main.py lines 333-350): admins only;
`counts` abstracts `db[col].count_documents` over the collections. -/
def admin_overview (user : SanitizedUser) (counts : String → Nat) :
    Except HTTPError (List (String × Nat)) :=
  if user.role ≠ "admin" then .error ⟨403, "Admin only"⟩
  else .ok [("users", counts "user"), ("products", counts "productlisting"),
            ("requirements", counts "buyerrequirement"),
            ("projects", counts "investmentproject"),
            ("transactions", counts "transaction"), ("jobs", counts "joblisting"),
            ("applications", counts "jobapplication")]

/-- C5 counterexample: decoding a freshly issued token does not return
{sub, role} exactly — at a concrete subject, role and issue time the
decoded payload differs from the two stated claims, because it also
carries the exp claim added at issuance. -/
theorem token_roundtrip_counterexample :
    decode_token 0 (create_token [("sub", .s "v@x.com"), ("role", .s "vendor")] 0 60)
      ≠ .ok [("sub", .s "v@x.com"), ("role", .s "vendor")] := by
  intro hcontra
  simp [create_token, decode_token, Payload.set, Payload.get, List.find?] at hcontra

/-- C5 (amended): for every subject and role, decoding a freshly issued
token (decode at the issue time, TTL positive) returns the subject and
role claims unchanged together with the exp claim set to issue time plus
the TTL, and nothing else. -/
theorem token_roundtrip (sub role : String) (now mins : Int) (h : 0 < mins) :
    decode_token now (create_token [("sub", .s sub), ("role", .s role)] now mins)
      = .ok [("sub", .s sub), ("role", .s role), ("exp", .i (now + mins * 60))] := by
  have hexp : ¬ (now + mins * 60 ≤ now) := by omega
  simp [create_token, decode_token, Payload.set, Payload.get, List.find?, hexp]

/-- Witness for C5: the round trip at a concrete subject, role and time. -/
theorem token_roundtrip_witness :
    (0 : Int) < 60 ∧
    decode_token 0 (create_token [("sub", .s "v@x.com"), ("role", .s "vendor")] 0 60)
      = .ok [("sub", .s "v@x.com"), ("role", .s "vendor"), ("exp", .i (0 + 60 * 60))] :=
  ⟨by decide, token_roundtrip "v@x.com" "vendor" 0 60 (by decide)⟩

/-- C6: the token verification failure taxonomy. A well-signed token whose
exp claim lies at or before now (in particular exp = now - 1) is rejected
401 "Token expired"; a token signed with a different secret, or a
malformed token, is rejected 401 "Invalid token"; a well-signed token with
exp = now + 1 is accepted; every failure is exactly one of the two fixed
401 errors (no other detail ever leaks), and the two are distinct. -/
theorem decode_token_taxonomy (p : Payload) (now : Int) :
    (∀ e, Payload.get p "exp" = some (.i e) → e ≤ now →
        decode_token now (.signed p JWT_SECRET) = .error ⟨401, "Token expired"⟩)
  ∧ (∀ s, s ≠ JWT_SECRET → decode_token now (.signed p s) = .error ⟨401, "Invalid token"⟩)
  ∧ decode_token now .malformed = .error ⟨401, "Invalid token"⟩
  ∧ (Payload.get p "exp" = some (.i (now + 1)) →
        decode_token now (.signed p JWT_SECRET) = .ok p)
  ∧ (∀ t err, decode_token now t = .error err →
        err = ⟨401, "Token expired"⟩ ∨ err = ⟨401, "Invalid token"⟩)
  ∧ (⟨401, "Token expired"⟩ : HTTPError) ≠ ⟨401, "Invalid token"⟩ := by
  refine ⟨?_, ?_, ?_, ?_, ?_, by decide⟩
  · intro e he hle
    simp [decode_token, he, hle]
  · intro s hs
    simp [decode_token, hs]
  · rfl
  · intro he
    simp [decode_token, he]
  · intro t err h
    cases t with
    | malformed =>
      simp [decode_token] at h
      right
      exact h.symm
    | signed q s =>
      by_cases hs : s = JWT_SECRET
      · subst hs
        rcases hq : Payload.get q "exp" with _ | v
        · simp [decode_token, hq] at h
        · cases v with
          | s str =>
            simp [decode_token, hq] at h
            right
            exact h.symm
          | i e =>
            by_cases hle : e ≤ now
            · simp [decode_token, hq, hle] at h
              left
              exact h.symm
            · simp [decode_token, hq, hle] at h
          | null =>
            simp [decode_token, hq] at h
            right
            exact h.symm
      · simp [decode_token, hs] at h
        right
        exact h.symm

/-- Witness for C6: the taxonomy at a concrete payload and time, with the
hypotheses of each conjunct discharged at exp = now - 1 and a wrong
secret. -/
theorem decode_token_taxonomy_witness :
    decode_token 0 (.signed [("exp", .i (-1))] JWT_SECRET) = .error ⟨401, "Token expired"⟩
  ∧ decode_token 0 (.signed [("exp", .i 5)] "other_secret") = .error ⟨401, "Invalid token"⟩
  ∧ decode_token 0 (.signed [("exp", .i 1)] JWT_SECRET) = .ok [("exp", .i 1)] := by
  refine ⟨?_, ?_, ?_⟩
  · exact (decode_token_taxonomy [("exp", .i (-1))] 0).1 (-1) (by decide) (by decide)
  · exact (decode_token_taxonomy [("exp", .i 5)] 0).2.1 "other_secret" (by decide)
  · exact (decode_token_taxonomy [("exp", .i 1)] 0).2.2.2.1 (by decide)

/-- C1: the role gate of each protected endpoint matches the spec table
exactly — products (create and list-own) only for vendor, requirements
only for buyer, create project for vendor or admin, invest only for
investor, create job for vendor or admin, apply for employee or admin,
admin overview only for admin; listing projects and job listings is
public (no user argument, never fails); any role outside the allowed set
receives exactly the handler's 403 error, independent of ownership. -/
theorem rbac_matrix (u : SanitizedUser) (pl : Payload) (ip : InvestPayload)
    (ap : ApplyPayload) (ds : List Payload) (counts : String → Nat) :
    ((u.role = "vendor" →
        create_product pl u = .ok (Payload.set pl "vendor_id" (JVal.ofOpt u.sid)))
      ∧ (u.role ≠ "vendor" →
        create_product pl u = .error ⟨403, "Only vendors can create products"⟩))
  ∧ ((u.role = "vendor" → ∃ r, my_products ds u = .ok r)
      ∧ (u.role ≠ "vendor" →
        my_products ds u = .error ⟨403, "Only vendors can view this"⟩))
  ∧ ((u.role = "buyer" → ∃ r, create_requirement pl u = .ok r)
      ∧ (u.role ≠ "buyer" →
        create_requirement pl u = .error ⟨403, "Only buyers can post requirements"⟩))
  ∧ ((u.role = "buyer" → ∃ r, my_requirements ds u = .ok r)
      ∧ (u.role ≠ "buyer" →
        my_requirements ds u = .error ⟨403, "Only buyers can view this"⟩))
  ∧ (((u.role = "vendor" ∨ u.role = "admin") → ∃ r, create_project pl u = .ok r)
      ∧ (u.role ≠ "vendor" → u.role ≠ "admin" →
        create_project pl u = .error ⟨403, "Only vendors or admins can create projects"⟩))
  ∧ ((u.role = "investor" → ∃ r, invest ip u = .ok r)
      ∧ (u.role ≠ "investor" →
        invest ip u = .error ⟨403, "Only investors can invest"⟩))
  ∧ (((u.role = "vendor" ∨ u.role = "admin") → create_job pl u = .ok pl)
      ∧ (u.role ≠ "vendor" → u.role ≠ "admin" →
        create_job pl u = .error ⟨403, "Only vendors/admins can post jobs"⟩))
  ∧ (((u.role = "employee" ∨ u.role = "admin") → ∃ r, apply_job ap u = .ok r)
      ∧ (u.role ≠ "employee" → u.role ≠ "admin" →
        apply_job ap u = .error ⟨403, "Only employees/admins can apply"⟩))
  ∧ ((u.role = "admin" → ∃ r, admin_overview u counts = .ok r)
      ∧ (u.role ≠ "admin" →
        admin_overview u counts = .error ⟨403, "Admin only"⟩))
  ∧ list_projects ds = ds.map stringify_id
  ∧ list_jobs ds = ds.map stringify_id := by
  refine ⟨?_, ?_, ?_, ?_, ?_, ?_, ?_, ?_, ?_, rfl, rfl⟩
  · exact ⟨fun h => by simp [create_product, h], fun h => by simp [create_product, h]⟩
  · exact ⟨fun h => by simp [my_products, h], fun h => by simp [my_products, h]⟩
  · exact ⟨fun h => by simp [create_requirement, h],
      fun h => by simp [create_requirement, h]⟩
  · exact ⟨fun h => by simp [my_requirements, h], fun h => by simp [my_requirements, h]⟩
  · constructor
    · rintro (h | h) <;> simp [create_project, h]
    · intro h h2
      simp [create_project, h, h2]
  · exact ⟨fun h => by simp [invest, h], fun h => by simp [invest, h]⟩
  · constructor
    · rintro (h | h) <;> simp [create_job, h]
    · intro h h2
      simp [create_job, h, h2]
  · constructor
    · rintro (h | h) <;> simp [apply_job, h]
    · intro h h2
      simp [apply_job, h, h2]
  · exact ⟨fun h => by simp [admin_overview, h], fun h => by simp [admin_overview, h]⟩

/-- A concrete sanitized admin user, used in witnesses. -/
def adminUser : SanitizedUser :=
  { sid := some "1", name := "Ada", email := "ada@x.com", phone := none, role := "admin",
    kyc_status := "pending", company_id := none, is_active := some true,
    created_at := 0, updated_at := 0 }

/-- Witness for C1: an admin is allowed to apply to a job (the spec table
row the claim singles out), with the role hypothesis discharged at the
concrete admin user. -/
theorem rbac_matrix_witness :
    ∃ r, apply_job ⟨"job1", none⟩ adminUser = .ok r :=
  (rbac_matrix adminUser [] ⟨"p1", 5⟩ ⟨"job1", none⟩ [] (fun _ => 0)).2.2.2.2.2.2.2.1.1
    (Or.inr rfl)

/-- C2: the session resolver fails 401 when the Authorization header is
absent (python None or the falsy empty string), 401 when the scheme is not
a case-insensitive "bearer" or the token part is empty, propagates the
codec's 401 on an invalid or expired token, fails 401 "User not found"
when the token's subject has no matching user in the store, and on a
well-formed header with a valid token and existing user returns exactly
the sanitized user. -/
theorem get_current_user_spec (de : String → SignedToken) (store : List UserDoc) (now : Int) :
    get_current_user de store now none = .error ⟨401, "Missing Authorization header"⟩
  ∧ get_current_user de store now (some "") = .error ⟨401, "Missing Authorization header"⟩
  ∧ (∀ a, a ≠ "" →
      (strToLower (partition a ' ').1 ≠ "bearer" ∨ (partition a ' ').2 = "") →
      get_current_user de store now (some a) = .error ⟨401, "Invalid auth header"⟩)
  ∧ (∀ a tok err, parseAuthHeader (some a) = .ok tok →
      decode_token now (de tok) = .error err →
      get_current_user de store now (some a) = .error err)
  ∧ (∀ a tok p, parseAuthHeader (some a) = .ok tok → decode_token now (de tok) = .ok p →
      lookup_sub store p = none →
      get_current_user de store now (some a) = .error ⟨401, "User not found"⟩)
  ∧ (∀ a tok p u, parseAuthHeader (some a) = .ok tok → decode_token now (de tok) = .ok p →
      lookup_sub store p = some u →
      get_current_user de store now (some a) = .ok (sanitize u)) := by
  refine ⟨rfl, rfl, ?_, ?_, ?_, ?_⟩
  · intro a ha hbad
    simp [get_current_user, parseAuthHeader, ha, hbad]
  · intro a tok err hpa hdec
    simp [get_current_user, hpa, hdec]
  · intro a tok p hpa hdec hloo
    simp [get_current_user, hpa, hdec, hloo]
  · intro a tok p u hpa hdec hloo
    simp [get_current_user, hpa, hdec, hloo]

/-- A concrete stored vendor user, used in witnesses. -/
def vendorDoc : UserDoc :=
  { oid := some 7, name := "Vic", email := "v@x.com", phone := none, role := "vendor",
    password_hash := some "h7", kyc_status := "pending", company_id := none,
    is_active := some true, created_at := 0, updated_at := 0 }

/-- A concrete deserializer mapping every token string to a fixed valid
token for vendorDoc, used in witnesses. -/
def vendorDe : String → SignedToken := fun _ =>
  .signed [("sub", .s "v@x.com"), ("role", .s "vendor"), ("exp", .i 100)] JWT_SECRET

/-- Witness for C2: the resolver succeeds on the concrete header
"Bearer t" against a store holding vendorDoc, and fails "User not found"
on the empty store; all hypotheses discharged by computation. -/
theorem get_current_user_spec_witness :
    get_current_user vendorDe [vendorDoc] 0 (some "Bearer t") = .ok (sanitize vendorDoc)
  ∧ get_current_user vendorDe [] 0 (some "Bearer t") = .error ⟨401, "User not found"⟩ := by
  constructor
  · exact (get_current_user_spec vendorDe [vendorDoc] 0).2.2.2.2.2 "Bearer t" "t"
      [("sub", .s "v@x.com"), ("role", .s "vendor"), ("exp", .i 100)] vendorDoc
      rfl rfl rfl
  · exact (get_current_user_spec vendorDe [] 0).2.2.2.2.1 "Bearer t" "t"
      [("sub", .s "v@x.com"), ("role", .s "vendor"), ("exp", .i 100)]
      rfl rfl rfl

/-- Helper: find_user misses exactly when no stored user has the email. -/
theorem find_user_eq_none {store : List UserDoc} {e : String} :
    find_user store e = none ↔ ∀ u ∈ store, u.email ≠ e := by
  simp [find_user, List.find?_eq_none]

/-- C3: on a store whose emails are all lowercase (the invariant signup
itself maintains), signup rejects 400 "Email already registered" exactly
when a user with the same email compared case-insensitively exists;
otherwise it persists a new user with the lowercased email, the password
only as a hash, kyc_status "pending" and is_active true, returns the
sanitized user, and issues a token whose sub is the lowercased email; and
a second signup whose email differs from the first only in case is
rejected as a duplicate. -/
theorem signup_spec (hashF : String → String) (p : SignupRequest) (store : List UserDoc)
    (now : Int) (newId : Nat)
    (hinv : ∀ u ∈ store, strToLower u.email = u.email) :
    ((∃ u ∈ store, strToLower u.email = strToLower p.email) →
        signup hashF p store now newId = .error ⟨400, "Email already registered"⟩)
  ∧ ((¬ ∃ u ∈ store, strToLower u.email = strToLower p.email) →
        ∃ resp d, signup hashF p store now newId = .ok (resp, store ++ [d])
          ∧ d.email = strToLower p.email
          ∧ d.password_hash = some (hashF p.password)
          ∧ d.kyc_status = "pending"
          ∧ d.is_active = some true
          ∧ resp.user = sanitize d
          ∧ resp.access_token.payload?.map (fun q => Payload.get q "sub")
              = some (some (.s (strToLower p.email))))
  ∧ (∀ (q : SignupRequest) resp1 st1, strToLower q.email = strToLower p.email →
        signup hashF p store now newId = .ok (resp1, st1) →
        signup hashF q st1 now newId = .error ⟨400, "Email already registered"⟩) := by
  refine ⟨?_, ?_, ?_⟩
  · rintro ⟨u, hu, he⟩
    have hne : find_user store (strToLower p.email) ≠ none := by
      intro hnone
      exact absurd (show u.email = strToLower p.email by rw [← hinv u hu, he])
        (find_user_eq_none.mp hnone u hu)
    rcases hfind : find_user store (strToLower p.email) with _ | v
    · exact absurd hfind hne
    · simp [signup, hfind]
  · intro hno
    have hfind : find_user store (strToLower p.email) = none := by
      rw [find_user_eq_none]
      intro u hu hemail
      exact hno ⟨u, hu, by rw [hinv u hu, hemail]⟩
    refine ⟨{ access_token :=
                create_token [("sub", .s (strToLower p.email)), ("role", .s p.role)] now 60
              token_type := "bearer"
              user := sanitize ⟨some newId, p.name, strToLower p.email, none, p.role,
                some (hashF p.password), "pending", none, some true, now, now⟩ },
            ⟨some newId, p.name, strToLower p.email, none, p.role, some (hashF p.password),
              "pending", none, some true, now, now⟩, ?_, rfl, rfl, rfl, rfl, rfl, ?_⟩
    · simp [signup, hfind]
    · simp [create_token, SignedToken.payload?, Payload.set, Payload.get, List.find?]
  · intro q resp1 st1 hq hok
    rcases hfind : find_user store (strToLower p.email) with _ | v
    · simp only [signup, hfind, Except.ok.injEq, Prod.mk.injEq] at hok
      obtain ⟨-, hst⟩ := hok
      have hmem : (⟨some newId, p.name, strToLower p.email, none, p.role,
          some (hashF p.password), "pending", none, some true, now, now⟩ : UserDoc) ∈ st1 := by
        rw [← hst]
        simp
      have hne : find_user st1 (strToLower q.email) ≠ none := by
        intro hnone
        exact absurd (show UserDoc.email ⟨some newId, p.name, strToLower p.email, none, p.role,
            some (hashF p.password), "pending", none, some true, now, now⟩
              = strToLower q.email by simp [hq])
          (find_user_eq_none.mp hnone _ hmem)
      rcases hfind2 : find_user st1 (strToLower q.email) with _ | w
      · exact absurd hfind2 hne
      · simp [signup, hfind2]
    · simp [signup, hfind] at hok

/-- Witness for C3: a concrete signup into the empty store succeeds with
the lowercased email, hashed password and defaulted fields. -/
theorem signup_spec_witness :
    ∃ resp d, signup (fun s => s ++ "#") ⟨"N", "A@X.com", "pw", "vendor"⟩ [] 0 7
        = .ok (resp, [] ++ [d])
      ∧ d.email = strToLower "A@X.com"
      ∧ d.password_hash = some ("pw" ++ "#")
      ∧ d.kyc_status = "pending"
      ∧ d.is_active = some true
      ∧ resp.user = sanitize d
      ∧ resp.access_token.payload?.map (fun q => Payload.get q "sub")
          = some (some (.s (strToLower "A@X.com"))) :=
  (signup_spec (fun s => s ++ "#") ⟨"N", "A@X.com", "pw", "vendor"⟩ [] 0 7
    (by simp)).2.1 (by simp)

/-- C4: login fails 401 "Invalid credentials" exactly when no user with
the lowercased email exists or password verification against the stored
hash (the empty string when no hash is stored) fails; when the credential
verifies but the user is deactivated it fails 403 "User deactivated" — so
the credential check strictly precedes the deactivation check; otherwise
it returns the token, token_type "bearer" and the sanitized user. The
model's login only reads the store (find_one returns a copy), so the
store is unchanged in every case by construction. -/
theorem login_spec (verifyF : String → String → Bool) (p : LoginRequest)
    (store : List UserDoc) (now : Int) :
    (login verifyF p store now = .error ⟨401, "Invalid credentials"⟩ ↔
        (find_user store (strToLower p.email) = none ∨
         ∃ u, find_user store (strToLower p.email) = some u ∧
           verifyF p.password (u.password_hash.getD "") = false))
  ∧ (∀ u, find_user store (strToLower p.email) = some u →
        verifyF p.password (u.password_hash.getD "") = true →
        u.is_active.getD true = false →
        login verifyF p store now = .error ⟨403, "User deactivated"⟩)
  ∧ (∀ u, find_user store (strToLower p.email) = some u →
        verifyF p.password (u.password_hash.getD "") = true →
        u.is_active.getD true = true →
        login verifyF p store now =
          .ok { access_token :=
                  create_token [("sub", .s (strToLower p.email)), ("role", .s u.role)] now 60
                token_type := "bearer"
                user := sanitize u }) := by
  refine ⟨⟨?_, ?_⟩, ?_, ?_⟩
  · intro h
    rcases hfind : find_user store (strToLower p.email) with _ | u
    · exact Or.inl rfl
    · right
      refine ⟨u, rfl, ?_⟩
      by_cases hv : verifyF p.password (u.password_hash.getD "")
      · by_cases hact : u.is_active.getD true
        · simp [login, hfind, hv, hact] at h
        · simp [login, hfind, hv, hact] at h
      · simpa using hv
  · intro h
    rcases h with hnone | ⟨u, hfind, hv⟩
    · simp [login, hnone]
    · simp [login, hfind, hv]
  · intro u hfind hv hact
    simp [login, hfind, hv, hact]
  · intro u hfind hv hact
    simp [login, hfind, hv, hact]

/-- Witness for C4: against a store holding the concrete vendor, the right
password logs in and returns the sanitized user, and against the empty
store login fails 401; hypotheses discharged by computation. -/
theorem login_spec_witness :
    login (fun _ hs => hs == "h7") ⟨"V@X.com", "pw"⟩ [vendorDoc] 0 =
      .ok { access_token :=
              create_token [("sub", .s (strToLower "V@X.com")), ("role", .s vendorDoc.role)] 0 60
            token_type := "bearer"
            user := sanitize vendorDoc }
  ∧ login (fun _ hs => hs == "h7") ⟨"V@X.com", "pw"⟩ [] 0 =
      .error ⟨401, "Invalid credentials"⟩ := by
  constructor
  · exact (login_spec (fun _ hs => hs == "h7") ⟨"V@X.com", "pw"⟩ [vendorDoc] 0).2.2
      vendorDoc rfl rfl rfl
  · exact (login_spec (fun _ hs => hs == "h7") ⟨"V@X.com", "pw"⟩ [] 0).1.mpr (Or.inl rfl)

/-- Helper: a user returned by lookup_sub is a member of the store. -/
theorem lookup_sub_mem {store : List UserDoc} {p : Payload} {u : UserDoc}
    (h : lookup_sub store p = some u) : u ∈ store := by
  unfold lookup_sub at h
  split at h
  · exact List.mem_of_find?_eq_some h
  · exact absurd h (by simp)

/-- C7: signup trusts the client-supplied role wholesale: for every role
string, including "admin" and strings outside the five-role enum, the
created user record, the issued token's role claim and the returned
sanitized user all carry that role unchanged with no validation or
rejection, and a self-provisioned "admin" subsequently passes the
admin-only gate. -/
theorem signup_trusts_role (hashF : String → String) (p : SignupRequest)
    (now : Int) (newId : Nat) (counts : String → Nat) :
    ∃ resp d, signup hashF p [] now newId = .ok (resp, [d])
      ∧ d.role = p.role
      ∧ resp.access_token.payload?.map (fun q => Payload.get q "role")
          = some (some (.s p.role))
      ∧ resp.user.role = p.role
      ∧ (p.role = "admin" → ∃ r, admin_overview resp.user counts = .ok r) := by
  refine ⟨{ access_token :=
              create_token [("sub", .s (strToLower p.email)), ("role", .s p.role)] now 60
            token_type := "bearer"
            user := sanitize ⟨some newId, p.name, strToLower p.email, none, p.role,
              some (hashF p.password), "pending", none, some true, now, now⟩ },
          ⟨some newId, p.name, strToLower p.email, none, p.role, some (hashF p.password),
            "pending", none, some true, now, now⟩, ?_, rfl, ?_, rfl, ?_⟩
  · simp [signup, find_user]
  · simp [create_token, SignedToken.payload?, Payload.set, Payload.get, List.find?]
  · intro h
    simp [admin_overview, sanitize, h]

/-- Witness for C7: a concrete signup requesting role "admin" stores role
"admin" and the resulting user passes the admin-only overview gate. -/
theorem signup_trusts_role_witness :
    ∃ resp d, signup (fun s => s) ⟨"E", "e@x.com", "pw", "admin"⟩ [] 0 3 = .ok (resp, [d])
      ∧ d.role = "admin"
      ∧ ∃ r, admin_overview resp.user (fun _ => 0) = .ok r := by
  obtain ⟨resp, d, hok, hrole, -, -, hadmin⟩ :=
    signup_trusts_role (fun s => s) ⟨"E", "e@x.com", "pw", "admin"⟩ 0 3 (fun _ => 0)
  exact ⟨resp, d, hok, hrole, hadmin rfl⟩

/-- C8: sanitization is the pure projection sanitize — it coerces the
stored id to a string and does not depend on the password hash (which has
no counterpart in the SanitizedUser type); every user representation
returned by the session resolver, login and signup is the sanitized view
of a stored record, and the stored record itself keeps its fields (signup
persists the record with the password hash intact while responding with
the sanitized view; the resolver and login only read the store). -/
theorem sanitize_spec (u : UserDoc) :
    (sanitize u).sid = u.oid.map (fun n => toString n)
  ∧ (∀ h, sanitize { u with password_hash := h } = sanitize u)
  ∧ (∀ de store now auth su, get_current_user de store now auth = .ok su →
        ∃ v ∈ store, su = sanitize v)
  ∧ (∀ verifyF p store now resp, login verifyF p store now = .ok resp →
        ∃ v, find_user store (strToLower p.email) = some v ∧ resp.user = sanitize v)
  ∧ (∀ hashF p store now newId resp st, signup hashF p store now newId = .ok (resp, st) →
        ∃ d, st = store ++ [d] ∧ resp.user = sanitize d
          ∧ d.password_hash = some (hashF p.password)) := by
  refine ⟨rfl, fun h => rfl, ?_, ?_, ?_⟩
  · intro de store now auth su hok
    rcases hpa : parseAuthHeader auth with e | tok
    · simp [get_current_user, hpa] at hok
    · rcases hdec : decode_token now (de tok) with e | pay
      · simp [get_current_user, hpa, hdec] at hok
      · rcases hloo : lookup_sub store pay with _ | v
        · simp [get_current_user, hpa, hdec, hloo] at hok
        · simp [get_current_user, hpa, hdec, hloo] at hok
          exact ⟨v, lookup_sub_mem hloo, hok.symm⟩
  · intro verifyF p store now resp hok
    rcases hfind : find_user store (strToLower p.email) with _ | v
    · simp [login, hfind] at hok
    · by_cases hv : verifyF p.password (v.password_hash.getD "")
      · by_cases hact : v.is_active.getD true
        · simp [login, hfind, hv, hact] at hok
          exact ⟨v, rfl, by rw [← hok]⟩
        · simp [login, hfind, hv, hact] at hok
      · simp [login, hfind, hv] at hok
  · intro hashF p store now newId resp st hok
    rcases hfind : find_user store (strToLower p.email) with _ | v
    · simp only [signup, hfind, Except.ok.injEq, Prod.mk.injEq] at hok
      refine ⟨⟨some newId, p.name, strToLower p.email, none, p.role,
          some (hashF p.password), "pending", none, some true, now, now⟩,
          hok.2.symm, ?_, rfl⟩
      rw [← hok.1]
    · simp [signup, hfind] at hok

/-- Witness for C8: the sanitized view of the concrete vendor has its id
stringified, ignores the password hash, and is exactly what the resolver
returns on a valid session for it. -/
theorem sanitize_spec_witness :
    (sanitize vendorDoc).sid = vendorDoc.oid.map (fun n => toString n)
  ∧ sanitize { vendorDoc with password_hash := none } = sanitize vendorDoc
  ∧ ∃ v ∈ [vendorDoc], sanitize vendorDoc = sanitize v :=
  ⟨(sanitize_spec vendorDoc).1, (sanitize_spec vendorDoc).2.1 none,
    (sanitize_spec vendorDoc).2.2.1 vendorDe [vendorDoc] 0 (some "Bearer t")
      (sanitize vendorDoc) rfl⟩

/-- C10: the session resolver never consults is_active — a stored user
with is_active false holding a valid unexpired token is resolved to the
sanitized user without error; every role-gated handler's result is
unchanged under any is_active value, so the token keeps passing the
gates; and at login a record lacking the is_active field is treated as
active. -/
theorem deactivated_user_session (de : String → SignedToken) (store : List UserDoc)
    (now : Int) :
    (∀ a tok p u, parseAuthHeader (some a) = .ok tok →
        decode_token now (de tok) = .ok p → lookup_sub store p = some u →
        u.is_active = some false →
        get_current_user de store now (some a) = .ok (sanitize u))
  ∧ (∀ (su : SanitizedUser) (b : Option Bool) (pl : Payload) (ip : InvestPayload)
        (ap : ApplyPayload) (ds : List Payload) (counts : String → Nat),
        create_product pl { su with is_active := b } = create_product pl su
      ∧ my_products ds { su with is_active := b } = my_products ds su
      ∧ create_requirement pl { su with is_active := b } = create_requirement pl su
      ∧ my_requirements ds { su with is_active := b } = my_requirements ds su
      ∧ create_project pl { su with is_active := b } = create_project pl su
      ∧ invest ip { su with is_active := b } = invest ip su
      ∧ create_job pl { su with is_active := b } = create_job pl su
      ∧ apply_job ap { su with is_active := b } = apply_job ap su
      ∧ admin_overview { su with is_active := b } counts = admin_overview su counts)
  ∧ (∀ (verifyF : String → String → Bool) (p : LoginRequest) u,
        find_user store (strToLower p.email) = some u →
        verifyF p.password (u.password_hash.getD "") = true →
        u.is_active = none →
        ∃ resp, login verifyF p store now = .ok resp) := by
  refine ⟨?_, ?_, ?_⟩
  · intro a tok p u hpa hdec hloo hinact
    simp [get_current_user, hpa, hdec, hloo]
  · intro su b pl ip ap ds counts
    refine ⟨rfl, rfl, ?_, ?_, ?_, rfl, rfl, ?_, rfl⟩ <;> rfl
  · intro verifyF p u hfind hv hia
    simp [login, hfind, hv, hia]

/-- A concrete deactivated vendor and a matching deserializer, used in the
C10 witness. -/
def deadDoc : UserDoc :=
  { vendorDoc with email := "d@x.com", is_active := some false }

/-- Deserializer mapping every token string to a valid token for deadDoc. -/
def deadDe : String → SignedToken := fun _ =>
  .signed [("sub", .s "d@x.com"), ("role", .s "vendor"), ("exp", .i 100)] JWT_SECRET

/-- Witness for C10: the deactivated concrete vendor is resolved without
error from a valid token, and a record lacking is_active logs in. -/
theorem deactivated_user_session_witness :
    get_current_user deadDe [deadDoc] 0 (some "Bearer t") = .ok (sanitize deadDoc)
  ∧ ∃ resp, login (fun _ hs => hs == "h7") ⟨"d@x.com", "pw"⟩
      [{ deadDoc with is_active := none }] 0 = .ok resp :=
  ⟨(deactivated_user_session deadDe [deadDoc] 0).1 "Bearer t" "t"
      [("sub", .s "d@x.com"), ("role", .s "vendor"), ("exp", .i 100)] deadDoc rfl rfl rfl rfl,
    (deactivated_user_session deadDe [{ deadDoc with is_active := none }] 0).2.2
      (fun _ hs => hs == "h7") ⟨"d@x.com", "pw"⟩ { deadDoc with is_active := none }
      rfl rfl rfl⟩

end Proton
